import Mathlib

/-!
Verification of the Fastify + dotenv tutorial server (`src/server.ts`).

The program loads environment configuration through
`dotenv.config({ path: path.resolve(__dirname, '..', '.env.local') })`,
derives three constants

  const PORT = process.env.PORT || 3000;
  const URL = process.env.URL || 'http://localhost:3000';
  const API_KEY = process.env.API_KEY;

registers `GET /` (echoing message/port/url/apiKey) and `POST /users`
(synthesizing `user-${Date.now()}`), and starts listening on
`parseInt(PORT as string, 10) || 3000`, exiting the process with code 1
when listening fails.

We embed the program shallowly: the world state is the process
environment table plus the optional env files on disk; `Date.now()` is an
explicit `Nat` parameter; JSON serialization of a response object is a
list of (field name, value) pairs in which an `undefined` (`none`) field
is omitted, as `JSON.stringify` / fastify's serializer does.
-/

namespace FastifyEnv

/-- An environment table / parsed env file: an association list from
variable names to values, first binding wins (as in a JS object built
left to right, later duplicate keys in a dotenv file overwrite earlier
ones; we model the already-merged table). -/
abbrev EnvMap := List (String × String)

/-- Lookup of a key in an environment table. -/
def lookupEnv (m : EnvMap) (k : String) : Option String :=
  (m.find? (fun p => p.1 == k)).map (fun p => p.2)

/-- The world the program starts in: the process environment table and
the optional env files on disk.  The program only ever reads
`.env.local` (field `localFile`); the other file slots exist so that
statements about files the program does *not* consult can be expressed.
`modeLocalFiles m` is the content of `.env.<m>.local`, `modeFiles m` the
content of `.env.<m>`, `baseFile` the content of `.env`; `none` means
the file is absent. -/
structure ConfigSources where
  procEnv : EnvMap
  modeLocalFiles : String → Option EnvMap
  localFile : Option EnvMap
  modeFiles : String → Option EnvMap
  baseFile : Option EnvMap

/-- `dotenv.config({ path: <.env.local> })` followed by a
`process.env` lookup: dotenv populates `process.env` from the parsed
file but never overwrites a key that is already present (the default
`override: false`); a missing file is silently skipped.  So the
post-`config` environment resolves a key to the process-environment
value when present, else to the `.env.local` value when that file
exists and defines it. -/
def resolvedEnv (cs : ConfigSources) (k : String) : Option String :=
  match lookupEnv cs.procEnv k with
  | some v => some v
  | none =>
    match cs.localFile with
    | some f => lookupEnv f k
    | none => none

/-- A JavaScript value that is either a string or a number, as produced
by `process.env.PORT || 3000` (string when the env var is set and
truthy, the number 3000 otherwise). -/
inductive StrOrNat where
  | str : String → StrOrNat
  | nat : Nat → StrOrNat
deriving DecidableEq, Repr

/-- `const PORT = process.env.PORT || 3000;` — JS `||` takes the right
operand when the left is falsy, and the only falsy string is `""`. -/
def PORT (cs : ConfigSources) : StrOrNat :=
  match resolvedEnv cs "PORT" with
  | some s => if s = "" then StrOrNat.nat 3000 else StrOrNat.str s
  | none => StrOrNat.nat 3000

/-- `const URL = process.env.URL || 'http://localhost:3000';` -/
def URL (cs : ConfigSources) : String :=
  match resolvedEnv cs "URL" with
  | some s => if s = "" then "http://localhost:3000" else s
  | none => "http://localhost:3000"

/-- `const API_KEY = process.env.API_KEY;` — no default. -/
def API_KEY (cs : ConfigSources) : Option String :=
  resolvedEnv cs "API_KEY"

/-- Modelled from the spec (the code has no such resolver): the run-mode
value "read from the environment, defaulting to `production` when
absent".  The code never reads a run-mode variable; we name it
`NODE_ENV` after the usual convention. -/
def runMode (cs : ConfigSources) : String :=
  match lookupEnv cs.procEnv "NODE_ENV" with
  | some m => m
  | none => "production"

/-- Modelled from the spec (the code has no such resolver): five layered
sources, highest first — process environment, `.env.<mode>.local`,
`.env.local`, `.env.<mode>`, `.env`; for every key the first value
found wins, and a missing file is skipped. -/
def specResolve (cs : ConfigSources) (k : String) : Option String :=
  match lookupEnv cs.procEnv k with
  | some v => some v
  | none =>
    match (cs.modeLocalFiles (runMode cs)).bind (fun f => lookupEnv f k) with
    | some v => some v
    | none =>
      match cs.localFile.bind (fun f => lookupEnv f k) with
      | some v => some v
      | none =>
        match (cs.modeFiles (runMode cs)).bind (fun f => lookupEnv f k) with
        | some v => some v
        | none => cs.baseFile.bind (fun f => lookupEnv f k)

/-- A key is absent from the process environment and from every
configuration file on disk. -/
def absentEverywhere (cs : ConfigSources) (k : String) : Prop :=
  lookupEnv cs.procEnv k = none ∧
  (∀ m f, cs.modeLocalFiles m = some f → lookupEnv f k = none) ∧
  (∀ f, cs.localFile = some f → lookupEnv f k = none) ∧
  (∀ m f, cs.modeFiles m = some f → lookupEnv f k = none) ∧
  (∀ f, cs.baseFile = some f → lookupEnv f k = none)

/-- A serialized JSON field value of the responses of this server:
every field is a string or a number. -/
inductive JVal where
  | s : String → JVal
  | n : Nat → JVal
deriving DecidableEq, Repr

/-- The `port` field of the `GET /` body: the JS value `PORT` serialized
as a JSON string or number according to its runtime type. -/
def jvalOfPort : StrOrNat → JVal
  | StrOrNat.str v => JVal.s v
  | StrOrNat.nat v => JVal.n v

/-- The `message` literal of the `GET /` handler. -/
def helloMessage : String := "Hello, Fastify with TypeScript! 👋"

/-- The serialized body of `GET /`: the handler returns the object
`{ message, port: PORT, url: URL, apiKey: API_KEY }`; serialization
keeps the property order and drops a property whose value is
`undefined` (which `apiKey` is when `API_KEY` is absent). -/
def rootBody (cs : ConfigSources) : List (String × JVal) :=
  [("message", JVal.s helloMessage),
   ("port", jvalOfPort (PORT cs)),
   ("url", JVal.s (URL cs))] ++
  (match API_KEY cs with
   | some k => [("apiKey", JVal.s k)]
   | none => [])

/-- The `GET /` handler: HTTP status and serialized body.  The route has
no failure path; the returned object is sent with status 200. -/
def getRoot (cs : ConfigSources) : Nat × List (String × JVal) :=
  (200, rootBody cs)

/-- The request body of `POST /users` as the handler sees it after JSON
parsing: each of `name` and `email` is a string or absent (`undefined`
after destructuring when the parsed object lacks the property).  No
schema is attached to the route, so nothing is validated or rejected. -/
structure CreateUserBody where
  name : Option String
  email : Option String
deriving DecidableEq, Repr

/-- The reply of `POST /users`: the HTTP status set by `reply.code` and
the fields of the `newUser` object passed to `send`. -/
structure UserReply where
  status : Nat
  id : String
  name : Option String
  email : Option String
deriving DecidableEq, Repr

/-- The `POST /users` handler.  `now` is the value of `Date.now()` at
processing time (epoch milliseconds); the template literal
`user-${Date.now()}` prints it in decimal.  `name`/`email` are
destructured from the body and passed through unchanged, and the reply
is sent with `reply.code(201)`. -/
def postUsers (body : CreateUserBody) (now : Nat) : UserReply :=
  { status := 201,
    id := "user-" ++ Nat.repr now,
    name := body.name,
    email := body.email }

/-- Whether a string matches the regular expression `^user-\d+$`. -/
def matchesUserId (s : String) : Bool :=
  match s.data with
  | c1 :: c2 :: c3 :: c4 :: c5 :: rest =>
    (c1 == 'u') && (c2 == 's') && (c3 == 'e') && (c4 == 'r') && (c5 == '-') &&
    !rest.isEmpty && rest.all Char.isDigit
  | _ => false

/-- JS whitespace accepted by `parseInt` before the number. -/
def jsWhitespace (c : Char) : Bool :=
  c = ' ' || c = '\t' || c = '\n' || c = '\r' || c = '\x0b' || c = '\x0c'

/-- The longest run of decimal digits at the head of a character list. -/
def leadingDigits : List Char → List Char
  | [] => []
  | c :: cs => if c.isDigit then c :: leadingDigits cs else []

/-- The numeric value of a list of decimal digit characters. -/
def digitsVal (l : List Char) : Nat :=
  l.foldl (fun a c => 10 * a + (c.toNat - 48)) 0

/-- The unsigned part of `parseInt`: the longest prefix of decimal
digits, `none` (`NaN`) when it is empty. -/
def jsParseNat (l : List Char) : Option Nat :=
  let d := leadingDigits l
  if d.isEmpty then none else some (digitsVal d)

/-- JavaScript `parseInt(s, 10)`: skip leading whitespace, accept an
optional sign, read the longest prefix of decimal digits; `none` models
the `NaN` result when no digit is read. -/
def jsParseInt10 (s : String) : Option Int :=
  match s.data.dropWhile jsWhitespace with
  | [] => none
  | c :: rest =>
    if c = '-' then
      match jsParseNat rest with
      | some n => some (-(n : Int))
      | none => none
    else if c = '+' then
      match jsParseNat rest with
      | some n => some ((n : Int))
      | none => none
    else
      match jsParseNat (c :: rest) with
      | some n => some ((n : Int))
      | none => none

/-- The string `parseInt` is applied to: `PORT as string` coerces the
number 3000 to its decimal representation when `PORT` took the default. -/
def portAsString : StrOrNat → String
  | StrOrNat.str v => v
  | StrOrNat.nat v => Nat.repr v

/-- The port passed to `server.listen`:
`parseInt(PORT as string, 10) || 3000` — `NaN` and `0` are falsy, so
both fall back to 3000. -/
def listenPort (cs : ConfigSources) : Int :=
  match jsParseInt10 (portAsString (PORT cs)) with
  | none => 3000
  | some i => if i = 0 then 3000 else i

/-- The observable outcome of `start()`. -/
inductive StartOutcome where
  | running : Int → StartOutcome
  | exited : Nat → StartOutcome
deriving DecidableEq, Repr

/-- `start()`: await `server.listen({ port: listenPort })`; on success
the server keeps running on that port, and on any listen error the
catch block logs it and calls `process.exit(1)`.  `listen` abstracts
the bind attempt of the runtime: `Except.error` is a thrown bind
failure with its message. -/
def start (cs : ConfigSources) (listen : Int → Except String Unit) : StartOutcome :=
  match listen (listenPort cs) with
  | Except.ok _ => StartOutcome.running (listenPort cs)
  | Except.error _ => StartOutcome.exited 1

/-! Concrete worlds used to evaluate the definitions at specific
inputs. -/

/-- Empty process environment, no env file on disk at all. -/
def csEmpty : ConfigSources :=
  { procEnv := [], modeLocalFiles := fun _ => none, localFile := none,
    modeFiles := fun _ => none, baseFile := some [] }

/-- A world in which `PORT` is defined only in the generic base file
`.env`: the process environment is empty and no other file exists. -/
def csOnlyBase : ConfigSources :=
  { procEnv := [], modeLocalFiles := fun _ => none, localFile := none,
    modeFiles := fun _ => none, baseFile := some [("PORT", "4000")] }

/-- A world in which the process environment defines `PORT` with the
empty value while `.env.local` defines `PORT=8080`. -/
def csEmptyPort : ConfigSources :=
  { procEnv := [("PORT", "")], modeLocalFiles := fun _ => none,
    localFile := some [("PORT", "8080")],
    modeFiles := fun _ => none, baseFile := none }

/-- A world whose process environment sets `PORT` to a non-numeric
string. -/
def csBadPort : ConfigSources :=
  { procEnv := [("PORT", "not-a-number")], modeLocalFiles := fun _ => none,
    localFile := none, modeFiles := fun _ => none, baseFile := none }

/-- A world with every config key set in the process environment. -/
def csFull : ConfigSources :=
  { procEnv := [("PORT", "8080"), ("URL", "https://example.com"),
                ("API_KEY", "secret-1")],
    modeLocalFiles := fun _ => none,
    localFile := some [("PORT", "9999"), ("API_KEY", "from-file")],
    modeFiles := fun _ => none, baseFile := none }

/-! Helper lemmas. -/

/-- Every digit character produced by `Nat.digitChar` below base 10 is a
decimal digit. -/
theorem digitChar_isDigit : ∀ m : Nat, m < 10 → (Nat.digitChar m).isDigit = true := by
  decide

/-- `Nat.toDigitsCore` in base 10 only ever emits decimal digit
characters (given a digit-only accumulator). -/
theorem toDigitsCore_digits (f : Nat) : ∀ (n : Nat) (l : List Char),
    (∀ c ∈ l, c.isDigit = true) →
    ∀ c ∈ Nat.toDigitsCore 10 f n l, c.isDigit = true := by
  induction f with
  | zero =>
    intro n l hl c hc
    exact hl c hc
  | succ f ih =>
    intro n l hl c hc
    simp only [Nat.toDigitsCore] at hc
    have hcons : ∀ x ∈ Nat.digitChar (n % 10) :: l, x.isDigit = true := by
      intro x hx
      rcases List.mem_cons.mp hx with h1 | h2
      · subst h1
        exact digitChar_isDigit _ (Nat.mod_lt _ (by decide))
      · exact hl x h2
    by_cases h : n / 10 = 0
    · rw [if_pos h] at hc
      exact hcons c hc
    · rw [if_neg h] at hc
      exact ih (n / 10) _ hcons c hc

/-- `Nat.toDigitsCore` never shrinks a nonempty accumulator away. -/
theorem toDigitsCore_ne_nil (f : Nat) : ∀ (n : Nat) (l : List Char),
    l ≠ [] → Nat.toDigitsCore 10 f n l ≠ [] := by
  induction f with
  | zero =>
    intro n l hl
    exact hl
  | succ f ih =>
    intro n l hl
    simp only [Nat.toDigitsCore]
    by_cases h : n / 10 = 0
    · rw [if_pos h]
      exact List.cons_ne_nil _ _
    · rw [if_neg h]
      exact ih _ _ (List.cons_ne_nil _ _)

/-- The decimal representation of a natural number is nonempty and
consists of digit characters only. -/
theorem repr_data_digits (n : Nat) :
    (Nat.repr n).data ≠ [] ∧ ∀ c ∈ (Nat.repr n).data, c.isDigit = true := by
  have hdata : (Nat.repr n).data = Nat.toDigitsCore 10 (n + 1) n [] := rfl
  constructor
  · rw [hdata]
    simp only [Nat.toDigitsCore]
    by_cases h : n / 10 = 0
    · rw [if_pos h]
      exact List.cons_ne_nil _ _
    · rw [if_neg h]
      exact toDigitsCore_ne_nil _ _ _ (List.cons_ne_nil _ _)
  · rw [hdata]
    exact toDigitsCore_digits (n + 1) n [] (by intro c hc; cases hc)

/-- The decimal representation of a natural number matches `user-`
prefixed id strings after the dash. -/
theorem matchesUserId_user_repr (n : Nat) :
    matchesUserId ("user-" ++ Nat.repr n) = true := by
  have hred : matchesUserId ("user-" ++ Nat.repr n)
      = (('u' == 'u') && ('s' == 's') && ('e' == 'e') && ('r' == 'r') && ('-' == '-') &&
         !(Nat.repr n).data.isEmpty && (Nat.repr n).data.all Char.isDigit) := rfl
  rw [hred]
  obtain ⟨hne, hdig⟩ := repr_data_digits n
  simp only [beq_self_eq_true, Bool.true_and, Bool.and_eq_true]
  constructor
  · cases hd : (Nat.repr n).data with
    | nil => exact absurd hd hne
    | cons c cs => rfl
  · exact List.all_eq_true.mpr hdig

/-- A list with no digit character has no leading digits. -/
theorem leadingDigits_eq_nil (l : List Char) (h : ∀ c ∈ l, c.isDigit = false) :
    leadingDigits l = [] := by
  cases l with
  | nil => rfl
  | cons c cs =>
    unfold leadingDigits
    rw [h c (List.mem_cons_self c cs)]
    rfl

/-- `jsParseNat` of a digit-free character list is `NaN`. -/
theorem jsParseNat_eq_none (l : List Char) (h : ∀ c ∈ l, c.isDigit = false) :
    jsParseNat l = none := by
  unfold jsParseNat
  rw [leadingDigits_eq_nil l h]
  rfl

/-- `parseInt(s, 10)` of a string with no digit character is `NaN`. -/
theorem jsParseInt10_eq_none (s : String) (h : ∀ c ∈ s.data, c.isDigit = false) :
    jsParseInt10 s = none := by
  unfold jsParseInt10
  cases hd : s.data.dropWhile jsWhitespace with
  | nil => rfl
  | cons c rest =>
    have hsub : ∀ x ∈ c :: rest, x.isDigit = false := by
      intro x hx
      apply h
      have := (List.dropWhile_sublist (l := s.data) jsWhitespace).subset
      rw [hd] at this
      exact this hx
    have hrest : ∀ x ∈ rest, x.isDigit = false := by
      intro x hx
      exact hsub x (List.mem_cons_of_mem c hx)
    show (if c = '-' then
            match jsParseNat rest with
            | some n => some (-(n : Int))
            | none => none
          else if c = '+' then
            match jsParseNat rest with
            | some n => some ((n : Int))
            | none => none
          else
            match jsParseNat (c :: rest) with
            | some n => some ((n : Int))
            | none => none) = none
    by_cases h1 : c = '-'
    · rw [if_pos h1, jsParseNat_eq_none rest hrest]
    · rw [if_neg h1]
      by_cases h2 : c = '+'
      · rw [if_pos h2, jsParseNat_eq_none rest hrest]
      · rw [if_neg h2, jsParseNat_eq_none (c :: rest) hsub]

/-- A key absent from the process environment and from every file is in
particular not resolved by the program (which reads only the process
environment and `.env.local`). -/
theorem resolvedEnv_eq_none_of_absent (cs : ConfigSources) (k : String)
    (h : absentEverywhere cs k) : resolvedEnv cs k = none := by
  obtain ⟨h1, _, h3, _, _⟩ := h
  unfold resolvedEnv
  rw [h1]
  cases hf : cs.localFile with
  | none => rfl
  | some f => exact h3 f hf

/-- In the empty world every key is absent from every source. -/
theorem csEmpty_absent (k : String) : absentEverywhere csEmpty k := by
  refine ⟨rfl, ?_, ?_, ?_, ?_⟩
  · intro m f hf
    cases hf
  · intro f hf
    cases hf
  · intro m f hf
    cases hf
  · intro f hf
    cases hf
    rfl

/-! The claims. -/

/-- C1, counterexample: configuration resolution does NOT consult five
layered sources.  With `PORT` defined only in the generic base file
`.env` (and absent from the process environment and every other file),
the claimed five-layer scan would resolve `PORT` to `"4000"`, but the
program — which loads only `.env.local` — resolves nothing and falls
back to the default 3000. -/
theorem config_five_layer_scan_false :
    specResolve csOnlyBase "PORT" = some "4000" ∧
    resolvedEnv csOnlyBase "PORT" = none ∧
    PORT csOnlyBase = StrOrNat.nat 3000 :=
  ⟨rfl, rfl, rfl⟩

/-- C1 (amended): configuration resolution consults exactly two layered
sources, highest first: (1) variables already in the process
environment at startup, (2) the single generic local override file
`.env.local`; for every key the resolved value is the first value found
in that order, and the environment-specific files, the generic base
file and any run-mode value are never consulted. -/
theorem config_resolution_two_sources (cs : ConfigSources) (k : String) :
    resolvedEnv cs k =
      (match lookupEnv cs.procEnv k with
       | some v => some v
       | none => cs.localFile.bind (fun f => lookupEnv f k)) ∧
    (∀ mlf mf bf,
      resolvedEnv
        { cs with modeLocalFiles := mlf, modeFiles := mf, baseFile := bf } k
        = resolvedEnv cs k) := by
  constructor
  · unfold resolvedEnv
    cases lookupEnv cs.procEnv k with
    | some v => rfl
    | none =>
      cases cs.localFile with
      | some f => rfl
      | none => rfl
  · intro mlf mf bf
    rfl

/-- C2, counterexample: a key present in the process environment does
NOT always yield that value in the resolved configuration.  With
`PORT` present in the process environment with the empty value (and
`PORT=8080` in `.env.local`), the resolved port is the default 3000 —
not the process-environment value `""` — because JS `||` treats the
empty string as falsy. -/
theorem process_env_empty_value_not_kept :
    lookupEnv csEmptyPort.procEnv "PORT" = some "" ∧
    PORT csEmptyPort = StrOrNat.nat 3000 ∧
    StrOrNat.nat 3000 ≠ StrOrNat.str "" :=
  ⟨rfl, rfl, by decide⟩

/-- C2 (amended): for every key (PORT, URL, API_KEY), a value present
in the process environment at startup shadows every file-based value:
the resolved value equals the process-environment value whenever that
value is non-empty (for API_KEY even when empty); an empty
process-environment value for PORT or URL falls back to the default,
still ignoring any file value. -/
theorem process_env_wins (cs : ConfigSources) (v : String) :
    (lookupEnv cs.procEnv "PORT" = some v → v ≠ "" → PORT cs = StrOrNat.str v) ∧
    (lookupEnv cs.procEnv "URL" = some v → v ≠ "" → URL cs = v) ∧
    (lookupEnv cs.procEnv "API_KEY" = some v → API_KEY cs = some v) := by
  refine ⟨?_, ?_, ?_⟩
  · intro h hv
    have h1 : resolvedEnv cs "PORT" = some v := by
      unfold resolvedEnv
      rw [h]
    simp only [PORT, h1]
    rw [if_neg hv]
  · intro h hv
    have h1 : resolvedEnv cs "URL" = some v := by
      unfold resolvedEnv
      rw [h]
    simp only [URL, h1]
    rw [if_neg hv]
  · intro h
    have h1 : resolvedEnv cs "API_KEY" = some v := by
      unfold resolvedEnv
      rw [h]
    simp only [API_KEY, h1]

/-- C3, counterexample: `GET /` does NOT always return a body with
exactly the four fields message, port, url, apiKey.  In a world where
`API_KEY` is absent from every source the handler's `apiKey` property is
`undefined`, serialization omits it, and the body has only three
fields. -/
theorem getRoot_exactly_four_fields_false :
    API_KEY csEmpty = none ∧
    (getRoot csEmpty).1 = 200 ∧
    ((getRoot csEmpty).2.map Prod.fst) = ["message", "port", "url"] ∧
    ((getRoot csEmpty).2.map Prod.fst) ≠ ["message", "port", "url", "apiKey"] :=
  ⟨rfl, rfl, rfl, by decide⟩

/-- C3 (amended): for every request, `GET /` returns HTTP status 200
and a body whose fields are message, port and url, plus apiKey exactly
when the resolved API_KEY is present; port and url equal the values in
the resolved configuration (PORT and URL). -/
theorem getRoot_status_and_fields (cs : ConfigSources) :
    (getRoot cs).1 = 200 ∧
    ((getRoot cs).2.map Prod.fst)
      = ["message", "port", "url"]
        ++ (if (API_KEY cs).isSome then ["apiKey"] else []) ∧
    List.lookup "port" (getRoot cs).2 = some (jvalOfPort (PORT cs)) ∧
    List.lookup "url" (getRoot cs).2 = some (JVal.s (URL cs)) := by
  cases hA : API_KEY cs with
  | none =>
    refine ⟨rfl, ?_, ?_, ?_⟩ <;> simp [getRoot, rootBody, hA, List.lookup]
  | some k =>
    refine ⟨rfl, ?_, ?_, ?_⟩ <;> simp [getRoot, rootBody, hA, List.lookup]

/-- C4: `POST /users` with string name and email returns HTTP 201 and a
body keeping name and email unchanged, with id the string `user-`
followed by the decimal digits of the current epoch-millisecond
timestamp, hence matching `^user-\d+$`. -/
theorem postUsers_created_response (name email : String) (now : Nat) :
    postUsers { name := some name, email := some email } now
      = { status := 201, id := "user-" ++ Nat.repr now,
          name := some name, email := some email } ∧
    matchesUserId (postUsers { name := some name, email := some email } now).id
      = true :=
  ⟨rfl, matchesUserId_user_repr now⟩

/-- C5: when PORT, URL and API_KEY are absent from the process
environment and from every configuration file, the resolved
configuration has port 3000, url `http://localhost:3000`, and no apiKey
(never defaulted); the server then also listens on 3000. -/
theorem defaults_when_absent_everywhere (cs : ConfigSources)
    (hp : absentEverywhere cs "PORT") (hu : absentEverywhere cs "URL")
    (ha : absentEverywhere cs "API_KEY") :
    PORT cs = StrOrNat.nat 3000 ∧
    URL cs = "http://localhost:3000" ∧
    API_KEY cs = none ∧
    listenPort cs = 3000 := by
  have hp' := resolvedEnv_eq_none_of_absent cs "PORT" hp
  have hu' := resolvedEnv_eq_none_of_absent cs "URL" hu
  have ha' := resolvedEnv_eq_none_of_absent cs "API_KEY" ha
  have hP : PORT cs = StrOrNat.nat 3000 := by
    simp only [PORT, hp']
  refine ⟨hP, ?_, ?_, ?_⟩
  · simp only [URL, hu']
  · simp only [API_KEY, ha']
  · simp only [listenPort, hP]
    rfl

/-- C5, witness: in the world with an empty process environment and no
env file, all three defaults are observed. -/
theorem defaults_when_absent_everywhere_witness :
    PORT csEmpty = StrOrNat.nat 3000 ∧
    URL csEmpty = "http://localhost:3000" ∧
    API_KEY csEmpty = none ∧
    listenPort csEmpty = 3000 :=
  defaults_when_absent_everywhere csEmpty (csEmpty_absent "PORT")
    (csEmpty_absent "URL") (csEmpty_absent "API_KEY")

/-- C6: when the resolved PORT value is a non-numeric string (no digit
character), startup does not fail: `parseInt` yields NaN, `|| 3000`
replaces it, and the server listens on the default port 3000. -/
theorem nonNumeric_port_listens_on_default (cs : ConfigSources) (s : String)
    (hP : PORT cs = StrOrNat.str s)
    (hs : s.data.all (fun c => !c.isDigit) = true) :
    listenPort cs = 3000 ∧
    ∀ listen, listen 3000 = Except.ok () →
      start cs listen = StartOutcome.running 3000 := by
  have hnd : ∀ c ∈ s.data, c.isDigit = false := by
    intro c hc
    have hb := List.all_eq_true.mp hs c hc
    simpa using hb
  have hport : listenPort cs = 3000 := by
    simp only [listenPort, hP, portAsString]
    rw [jsParseInt10_eq_none s hnd]
  refine ⟨hport, ?_⟩
  intro listen hok
  simp only [start, hport, hok]

/-- C6, witness: with `PORT=not-a-number` in the process environment,
the server listens on 3000 and startup succeeds when binding 3000
succeeds. -/
theorem nonNumeric_port_listens_on_default_witness :
    listenPort csBadPort = 3000 ∧
    ∀ listen, listen 3000 = Except.ok () →
      start csBadPort listen = StartOutcome.running 3000 :=
  nonNumeric_port_listens_on_default csBadPort "not-a-number" rfl (by decide)

/-- C7: `POST /users` performs no schema validation: for every request
body — including bodies whose name or email is absent — the handler
replies with status 201, passing the (possibly absent) fields through
unchanged rather than rejecting the request. -/
theorem postUsers_never_rejects (body : CreateUserBody) (now : Nat) :
    (postUsers body now).status = 201 ∧
    (postUsers body now).name = body.name ∧
    (postUsers body now).email = body.email :=
  ⟨rfl, rfl, rfl⟩

/-- C8: the generated user id is a function of the clock reading only:
two `POST /users` requests processed at the same epoch millisecond get
identical ids whatever their bodies. -/
theorem postUsers_id_same_millisecond (b1 b2 : CreateUserBody) (now : Nat) :
    (postUsers b1 now).id = (postUsers b2 now).id :=
  rfl

/-- C9: when binding the resolved port fails, `start` terminates the
process with exit code 1, and this is the only termination path: the
startup outcome is `exited c` exactly when the bind failed and then
`c = 1`; otherwise the server runs on the resolved port. -/
theorem start_bind_failure_exits_one (cs : ConfigSources)
    (listen : Int → Except String Unit) :
    (start cs listen = StartOutcome.exited 1
      ↔ ∃ e, listen (listenPort cs) = Except.error e) ∧
    (∀ c, start cs listen = StartOutcome.exited c → c = 1) ∧
    (∀ p, start cs listen = StartOutcome.running p →
      p = listenPort cs ∧ listen (listenPort cs) = Except.ok ()) := by
  cases h : listen (listenPort cs) with
  | ok u =>
    cases u
    have hs : start cs listen = StartOutcome.running (listenPort cs) := by
      simp only [start, h]
    refine ⟨?_, ?_, ?_⟩
    · rw [hs]
      constructor
      · intro hx
        exact StartOutcome.noConfusion hx
      · rintro ⟨e, he⟩
        cases he
    · intro c hc
      rw [hs] at hc
      cases hc
    · intro p hp
      rw [hs] at hp
      cases hp
      exact ⟨rfl, rfl⟩
  | error e =>
    have hs : start cs listen = StartOutcome.exited 1 := by
      simp only [start, h]
    refine ⟨?_, ?_, ?_⟩
    · rw [hs]
      exact ⟨fun _ => ⟨e, rfl⟩, fun _ => rfl⟩
    · intro c hc
      rw [hs] at hc
      cases hc
      rfl
    · intro p hp
      rw [hs] at hp
      cases hp

/-- C10: when API_KEY is absent from every source, the serialized
`GET /` body omits the apiKey field (an `undefined` value is not
serialized) and contains only message, port and url. -/
theorem getRoot_omits_absent_api_key (cs : ConfigSources)
    (h : API_KEY cs = none) :
    ((getRoot cs).2.map Prod.fst) = ["message", "port", "url"] := by
  simp only [getRoot, rootBody, h]
  rfl

/-- C10, witness: in the empty world the body has exactly the three
fields. -/
theorem getRoot_omits_absent_api_key_witness :
    ((getRoot csEmpty).2.map Prod.fst) = ["message", "port", "url"] :=
  getRoot_omits_absent_api_key csEmpty rfl

end FastifyEnv
